import Mathlib

/-!
# ProjectDesk — verification of the status engine and access controller

Shallow embedding of the core logic of the ProjectDesk application:
the project status derivation (`src/pages/projects/[id]/index.tsx` task-set
computations together with the status cascade), the two coexisting
`authorize` implementations (`src/pages/api/auth/[...nextauth].ts` and the
alternative NextAuth configuration), the GoCardless webhook handler, the
explicit subscription-cancel handler
(`src/pages/api/supervisor/subscription/manage.ts`), and the sponsorship
grant handler (`src/pages/api/supervisor/sponsored/index.ts`).

Timestamps are modelled as `Int` milliseconds since the epoch (the JS
`Date.getTime()` value).  Database rows are Lean structures; the user table
is a `List User`; Prisma `findUnique`/`findFirst` become `List.find?`,
`update`/`updateMany` become `List.map` with a guard.
-/

namespace ProjectDesk

/-! ## Data model (prisma schema, subset used by the core) -/

inductive SubscriptionType where
  | FREE_TRIAL
  | SUBSCRIBED
  | SPONSORED
  | CANCELLED
  | ADMIN_APPROVED
  deriving DecidableEq, Repr, BEq

inductive UserRole where
  | SUPERVISOR
  | STUDENT
  | COLLABORATOR
  | ADMIN
  deriving DecidableEq, Repr, BEq

structure User where
  id : Nat
  email : String
  name : Option String
  passwordHash : Option String
  emailVerified : Bool
  role : UserRole
  subscriptionType : SubscriptionType
  subscriptionStartedAt : Option Int
  subscriptionExpiresAt : Option Int
  sponsorId : Option Nat
  supervisorId : Option Nat
  sponsorSubscriptionInactive : Bool
  goCardlessSubscriptionId : Option String
  goCardlessMandateId : Option String
  goCardlessSubscriptionStatus : Option String
  deriving DecidableEq, Repr, BEq

structure Task where
  title : String
  status : String
  dueDate : Option Int
  startDate : Option Int
  duration : Option Int
  deriving DecidableEq, Repr, BEq

/-! ## StatusEngine task-set computations
(`src/pages/projects/[id]/index.tsx`) -/

/-- Source `normalizeTaskStatus`: lower-cases the raw status string
(`status.toLowerCase()`, written out character-wise). -/
def normalizeTaskStatus (status : String) : String :=
  ⟨status.data.map Char.toLower⟩

/-- Source constant `oneDayMs = 24 * 60 * 60 * 1000`. -/
def oneDayMs : Int := 24 * 60 * 60 * 1000

/-- The statuses counted as completed by the engine (`done`, `completed`,
`complete` after normalization). -/
def completedStatuses : List String := ["done", "completed", "complete"]

/-- A task is *active* when its normalized status is not a completed one. -/
def isActiveTask (t : Task) : Bool :=
  !(completedStatuses.contains (normalizeTaskStatus t.status))

/-- Source `overdueTasks` filter: due date present, `dueTime < now - oneDayMs`, and
the task is not done/completed/complete. -/
def overdueFilter (now : Int) (t : Task) : Bool :=
  match t.dueDate with
  | none => false
  | some dueTime =>
      decide (dueTime < now - oneDayMs) &&
      !(completedStatuses.contains (normalizeTaskStatus t.status))

def overdueTasks (now : Int) (tasks : List Task) : List Task :=
  tasks.filter (overdueFilter now)

/-- Statuses that place a past-due task in the behind-schedule set. -/
def behindScheduleStatuses : List String :=
  ["behind_schedule", "not_started", "to_do", "todo", "in_progress"]

/-- Source `behindScheduleTasks` filter: due date present, `dueTime < now`, and the
normalized status is one of the behind-schedule statuses. -/
def behindScheduleFilter (now : Int) (t : Task) : Bool :=
  match t.dueDate with
  | none => false
  | some dueTime =>
      decide (dueTime < now) &&
      behindScheduleStatuses.contains (normalizeTaskStatus t.status)

def behindScheduleTasks (now : Int) (tasks : List Task) : List Task :=
  tasks.filter (behindScheduleFilter now)

/-- Source `durationOverflow` filter: start date and project end date present,
duration a positive number, and `startDate + duration * oneDayMs >
projectEndDate`. -/
def durationOverflowFilter (projectEndDate : Option Int) (t : Task) : Bool :=
  match t.startDate, projectEndDate with
  | some startTime, some endTime =>
      match t.duration with
      | none => false
      | some d => decide (0 < d) && decide (startTime + d * oneDayMs > endTime)
  | _, _ => false

def durationOverflow (projectEndDate : Option Int) (tasks : List Task) : List Task :=
  tasks.filter (durationOverflowFilter projectEndDate)

/-- Source `tasksBeyondProject` filter: due date and project end date present and
`dueDate > projectEndDate`. -/
def beyondProjectFilter (projectEndDate : Option Int) (t : Task) : Bool :=
  match t.dueDate, projectEndDate with
  | some dueTime, some endTime => decide (dueTime > endTime)
  | _, _ => false

def tasksBeyondProject (projectEndDate : Option Int) (tasks : List Task) : List Task :=
  tasks.filter (beyondProjectFilter projectEndDate)

/-- A task counts as completed for the all-tasks-complete check. -/
def isCompletedTask (t : Task) : Bool :=
  completedStatuses.contains (normalizeTaskStatus t.status)

/-- Modelled from the spec: the ordered first-match-wins status cascade of
`@/lib/updateProjectStatus`, whose source file is absent from the
repository snapshot (only its caller in the project-creation handler is
present).  The four task-set memberships are the source-derived filters
above; the cascade order follows the specification: Not Started,
Completed, Danger (`|behindScheduleSet| >= 2` or any duration overflow or
any task beyond the project end), At Risk (`|behindScheduleSet| == 1`),
Behind Schedule (`|overdue| > 0`), otherwise On Track. -/
def deriveStatus (tasks : List Task) (projectEndDate : Option Int) (now : Int) : String :=
  if tasks.isEmpty then "Not Started"
  else if tasks.all isCompletedTask then "Completed"
  else
    let behindCount := (behindScheduleTasks now tasks).length
    let overflowCount := (durationOverflow projectEndDate tasks).length
    let beyondCount := (tasksBeyondProject projectEndDate tasks).length
    let overdueCount := (overdueTasks now tasks).length
    if 2 ≤ behindCount ∨ 0 < overflowCount ∨ 0 < beyondCount then "Danger"
    else if behindCount = 1 then "At Risk"
    else if 0 < overdueCount then "Behind Schedule"
    else "On Track"

/-! ## Subscription helpers (`src/lib/subscriptions.ts`) -/

/-- Constant `SUPERVISOR_SPONSOR_LIMIT = 50`. -/
def SUPERVISOR_SPONSOR_LIMIT : Nat := 50

/-- Predicate `canSponsorAccounts`: only SUBSCRIBED and ADMIN_APPROVED may sponsor. -/
def canSponsorAccounts (subscriptionType : SubscriptionType) : Bool :=
  subscriptionType == SubscriptionType.SUBSCRIBED ||
  subscriptionType == SubscriptionType.ADMIN_APPROVED

/-! ## AccessController — the two `authorize` implementations -/

/-- JS truthiness of a nullable numeric id: `null` and `0` are falsy. -/
def truthyId : Option Nat → Bool
  | none => false
  | some n => n != 0

/-- The session payload returned by the primary `authorize`
(`src/pages/api/auth/[...nextauth].ts`). -/
structure AuthUser where
  id : String
  name : Option String
  email : String
  role : UserRole
  subscriptionType : SubscriptionType
  subscriptionStartedAt : Option Int
  subscriptionExpiresAt : Option Int
  sponsorId : Option Nat
  sponsorSubscriptionInactive : Bool
  deriving DecidableEq, Repr, BEq

def mkAuthUser (u : User) : AuthUser :=
  { id := toString u.id
    name := u.name
    email := u.email
    role := u.role
    subscriptionType := u.subscriptionType
    subscriptionStartedAt := u.subscriptionStartedAt
    subscriptionExpiresAt := u.subscriptionExpiresAt
    sponsorId := u.sponsorId
    sponsorSubscriptionInactive := u.sponsorSubscriptionInactive }

/-- The session payload returned by the alternative `authorize`
(the second NextAuth configuration): `name` falls back to the email and the
`sponsorSubscriptionInactive` flag is not part of the payload. -/
structure AuthUserAlt where
  id : String
  name : String
  email : String
  role : UserRole
  subscriptionType : SubscriptionType
  subscriptionStartedAt : Option Int
  subscriptionExpiresAt : Option Int
  sponsorId : Option Nat
  deriving DecidableEq, Repr, BEq

def mkAuthUserAlt (u : User) : AuthUserAlt :=
  { id := toString u.id
    name := u.name.getD u.email
    email := u.email
    role := u.role
    subscriptionType := u.subscriptionType
    subscriptionStartedAt := u.subscriptionStartedAt
    subscriptionExpiresAt := u.subscriptionExpiresAt
    sponsorId := u.sponsorId }

/-- Outcome of an `authorize` call: a session payload, a thrown error
message, or a `null` return. -/
inductive AuthResult (α : Type) where
  | ok (a : α)
  | error (msg : String)
  | nullResult
  deriving DecidableEq, Repr, BEq

/-- The FREE_TRIAL expiry test shared by both implementations:
`subscriptionExpiresAt && subscriptionExpiresAt.getTime() < Date.now()`
(a `Date` object is always truthy, so this is non-null and in the past). -/
def trialExpired (expiresAt : Option Int) (now : Int) : Bool :=
  match expiresAt with
  | none => false
  | some t => decide (t < now)

/-- Primary `authorize` (`src/pages/api/auth/[...nextauth].ts`).
`verify` stands for the external `bcrypt.compare`; `findUserByEmail` for
`prisma.user.findUnique({ where: { email } })`.  The verification email
sent on the unverified-email path is an external fire-and-forget side
effect and is not part of the modelled result. -/
def authorizeMain (verify : String → String → Bool)
    (findUserByEmail : String → Option User)
    (email password : String) (now : Int) : AuthResult AuthUser :=
  match findUserByEmail email with
  | none => .error "No user found"
  | some user =>
    match user.passwordHash with
    | none => .error "No user found"
    | some hash =>
      if !(verify password hash) then .error "Invalid password"
      else if !user.emailVerified then .error "Email not verified"
      else if user.subscriptionType == SubscriptionType.SPONSORED &&
          !(truthyId user.sponsorId) then
        .error "Awaiting sponsorship approval"
      else if user.subscriptionType == SubscriptionType.FREE_TRIAL &&
          trialExpired user.subscriptionExpiresAt now then
        .error "Your free trial has ended"
      else .ok (mkAuthUser user)

/-- Alternative `authorize` (second NextAuth configuration): returns `null`
instead of throwing for missing credentials, unknown users and wrong
passwords, performs no email-verification check, and adds an explicit
CANCELLED rejection. -/
def authorizeAlt (verify : String → String → Bool)
    (findUserByEmail : String → Option User)
    (email password : String) (now : Int) : AuthResult AuthUserAlt :=
  if email == "" || password == "" then .nullResult
  else
    match findUserByEmail email with
    | none => .nullResult
    | some user =>
      match user.passwordHash with
      | none => .nullResult
      | some hash =>
        if !(verify password hash) then .nullResult
        else if user.subscriptionType == SubscriptionType.SPONSORED &&
            !(truthyId user.sponsorId) then
          .error "Awaiting sponsorship approval"
        else if user.subscriptionType == SubscriptionType.CANCELLED then
          .error "Subscription cancelled"
        else if user.subscriptionType == SubscriptionType.FREE_TRIAL &&
            trialExpired user.subscriptionExpiresAt now then
          .error "Your free trial has ended"
        else .ok (mkAuthUserAlt user)

/-- Post-login UI lockout for a sponsored user whose sponsor's billing
became inactive (`Layout` component): the account profile's role is
STUDENT or COLLABORATOR and its `sponsorSubscriptionInactive` flag is set. -/
def sponsorInactiveLockout (role : UserRole) (sponsorSubscriptionInactive : Bool) : Bool :=
  (role == UserRole.STUDENT || role == UserRole.COLLABORATOR) &&
  sponsorSubscriptionInactive

/-! ## GoCardless webhook handler (subscription events) -/

def SUBSCRIPTION_TERMINATION_ACTIONS : List String :=
  ["cancelled", "expired", "finished", "failed"]

def SUBSCRIPTION_ACTIVE_ACTIONS : List String :=
  ["created", "customer_approval_granted", "active"]

/-- Lookup `tx.user.findFirst` by `goCardlessSubscriptionId`. -/
def findBySubscriptionId (subId : String) (users : List User) : Option User :=
  users.find? (fun u => u.goCardlessSubscriptionId == some subId)

/-- The termination write on the matched user: CANCELLED,
`subscriptionExpiresAt = now`, `goCardlessSubscriptionStatus = action`. -/
def terminateMatchedUser (now : Int) (action : String) (uid : Nat) (u : User) : User :=
  if u.id == uid then
    { u with subscriptionType := SubscriptionType.CANCELLED
             subscriptionExpiresAt := some now
             goCardlessSubscriptionStatus := some action }
  else u

/-- The activation write on the matched user: SUBSCRIBED,
`subscriptionStartedAt = now`, `subscriptionExpiresAt = null`. -/
def activateMatchedUser (now : Int) (action : String) (uid : Nat) (u : User) : User :=
  if u.id == uid then
    { u with subscriptionType := SubscriptionType.SUBSCRIBED
             subscriptionStartedAt := some now
             subscriptionExpiresAt := none
             goCardlessSubscriptionStatus := some action }
  else u

/-- The fallback write recording only the raw subscription status. -/
def recordStatusOnly (action : String) (uid : Nat) (u : User) : User :=
  if u.id == uid then { u with goCardlessSubscriptionStatus := some action } else u

/-- Write `tx.user.updateMany` setting `sponsorSubscriptionInactive` on every
user whose `sponsorId` references the matched user. -/
def setSponsorInactiveFlag (uid : Nat) (value : Bool) (u : User) : User :=
  if u.sponsorId == some uid then { u with sponsorSubscriptionInactive := value } else u

/-- Processing of one `subscriptions` webhook event (the transaction body
of the webhook handler). -/
def processSubscriptionEvent (subId action : String) (now : Int)
    (users : List User) : List User :=
  match findBySubscriptionId subId users with
  | none => users
  | some m =>
    if SUBSCRIPTION_TERMINATION_ACTIONS.contains action then
      (users.map (terminateMatchedUser now action m.id)).map
        (setSponsorInactiveFlag m.id true)
    else if SUBSCRIPTION_ACTIVE_ACTIONS.contains action then
      (users.map (activateMatchedUser now action m.id)).map
        (setSponsorInactiveFlag m.id false)
    else
      users.map (recordStatusOnly action m.id)

/-! ## Explicit subscription cancellation
(`src/pages/api/supervisor/subscription/manage.ts`, DELETE branch) -/

/-- Outcome of the synchronous GoCardless `cancelSubscription` call. -/
inductive BillingCallResult where
  | ok
  | fail (msg : String)
  deriving DecidableEq, Repr

/-- The supervisor-row write of the DELETE branch: CANCELLED,
`subscriptionExpiresAt = now`, `goCardlessSubscriptionStatus = "cancelled"`. -/
def explicitCancelUser (now : Int) (supId : Nat) (u : User) : User :=
  if u.id == supId then
    { u with subscriptionType := SubscriptionType.CANCELLED
             subscriptionExpiresAt := some now
             goCardlessSubscriptionStatus := some "cancelled" }
  else u

/-- DELETE branch of the subscription-manage handler: look the supervisor
up, require a GoCardless subscription id, call the billing provider, and
only on success run the transaction writing the supervisor row and
flagging every sponsored user. -/
def manageSubscriptionDelete (billing : BillingCallResult) (sessionUserId : Nat)
    (now : Int) (users : List User) : Except String Unit × List User :=
  match users.find? (fun u => u.id == sessionUserId) with
  | none => (.error "Supervisor not found", users)
  | some supervisor =>
    match supervisor.goCardlessSubscriptionId with
    | none => (.error "No GoCardless subscription to cancel.", users)
    | some _ =>
      match billing with
      | .fail msg => (.error msg, users)
      | .ok =>
        (.ok (),
          (users.map (explicitCancelUser now supervisor.id)).map
            (setSponsorInactiveFlag supervisor.id true))

/-! ## Sponsorship grant handler
(`src/pages/api/supervisor/sponsored/index.ts`, POST branch) -/

/-- An HTTP response modelled as its status code and optional error
message. -/
structure ApiResponse where
  status : Nat
  error : Option String
  deriving DecidableEq, Repr

/-- Number of users whose `sponsorId` references the given sponsor
(the `sponsoredUsers` relation count). -/
def countSponsoredBy (supId : Nat) (users : List User) : Nat :=
  (users.filter (fun u => u.sponsorId == some supId)).length

/-- First database phase of the POST branch: one `findUnique` fetching the
supervisor together with its `sponsoredUsers` relation.  This read is not
inside any transaction with the later write. -/
def sponsoredReadSupervisor (sessionUserId : Nat) (users : List User) :
    Option (User × Nat) :=
  match users.find? (fun u => u.id == sessionUserId) with
  | none => none
  | some sup => some (sup, countSponsoredBy sessionUserId users)

/-- Second phase of the POST branch: the subscription and limit checks
against the previously fetched supervisor record and sponsored count,
then the target lookup and the sponsorship write against the current
table state. -/
def sponsoredGrant (sessionUserId uid : Nat) (sup : User) (sponsoredCount : Nat)
    (users : List User) : ApiResponse × List User :=
  if !(canSponsorAccounts sup.subscriptionType) then
    (⟨403, some "Only active subscribers can sponsor accounts"⟩, users)
  else if SUPERVISOR_SPONSOR_LIMIT ≤ sponsoredCount then
    (⟨400, some ("Sponsor limit of " ++ toString SUPERVISOR_SPONSOR_LIMIT ++ " reached")⟩,
      users)
  else
    match users.find? (fun u => u.id == uid) with
    | none => (⟨404, some "User not found"⟩, users)
    | some target =>
      if target.role == UserRole.SUPERVISOR || target.role == UserRole.ADMIN then
        (⟨400, some "Only students or collaborators can be sponsored"⟩, users)
      else if truthyId target.sponsorId && target.sponsorId != some sessionUserId then
        (⟨409, some "User is already sponsored by another supervisor"⟩, users)
      else
        (⟨200, none⟩,
          users.map (fun u =>
            if u.id == target.id then
              { u with sponsorId := some sessionUserId
                       supervisorId := some sessionUserId
                       subscriptionType := SubscriptionType.SPONSORED
                       subscriptionExpiresAt := none }
            else u))

/-- POST branch of the sponsorship handler: `ensureSupervisor` session and
role gate, body validation (`!userId` rejects `null` and the falsy `0`),
self-sponsoring check, then the read phase followed by the grant phase
executed sequentially on the same state. -/
def sponsoredHandlerPost (session : Option (Nat × UserRole)) (bodyUserId : Option Nat)
    (users : List User) : ApiResponse × List User :=
  match session with
  | none => (⟨401, some "Not authenticated"⟩, users)
  | some (sessionUserId, role) =>
    if !(role == UserRole.SUPERVISOR || role == UserRole.ADMIN) then
      (⟨403, some "Access denied"⟩, users)
    else
      match bodyUserId with
      | none => (⟨400, some "userId is required"⟩, users)
      | some uid =>
        if uid == 0 then (⟨400, some "userId is required"⟩, users)
        else if uid == sessionUserId then
          (⟨400, some "You cannot sponsor yourself"⟩, users)
        else
          match sponsoredReadSupervisor sessionUserId users with
          | none => (⟨404, some "Supervisor record not found"⟩, users)
          | some (sup, cnt) => sponsoredGrant sessionUserId uid sup cnt users

/-! ## Project update endpoint (`src/pages/api/projects/[id].ts`, PUT) -/

structure Project where
  id : Nat
  title : String
  description : String
  startDate : Option Int
  endDate : Option Int
  category : String
  supervisorId : Nat
  studentIds : List Nat
  collaboratorIds : List Nat
  deriving DecidableEq, Repr

structure MemberInput where
  id : Option Nat
  email : String
  name : Option String
  deriving DecidableEq, Repr

structure ProjectUpdateBody where
  title : String
  description : String
  startDate : Option Int
  endDate : Option Int
  category : String
  students : List MemberInput
  collaborators : List MemberInput
  deriving DecidableEq, Repr

/-- The request as the framework hands it to the route: the identity the
session cookie would resolve to (never consulted by this handler), the
dynamic route parameter and the parsed body. -/
structure ApiRequest where
  sessionUserId : Option Nat
  projectId : Nat
  body : ProjectUpdateBody
  deriving DecidableEq, Repr

structure AppState where
  users : List User
  projects : List Project
  nextUserId : Nat
  deriving DecidableEq, Repr

/-- A user row as `prisma.user.create` builds it in `resolveMembers`
(schema defaults for the omitted columns). -/
def createMemberUser (email : String) (name : Option String) (role : UserRole)
    (uid : Nat) : User :=
  { id := uid
    email := email
    name := name
    passwordHash := none
    emailVerified := false
    role := role
    subscriptionType := SubscriptionType.FREE_TRIAL
    subscriptionStartedAt := none
    subscriptionExpiresAt := none
    sponsorId := none
    supervisorId := none
    sponsorSubscriptionInactive := false
    goCardlessSubscriptionId := none
    goCardlessMandateId := none
    goCardlessSubscriptionStatus := none }

/-- Source `resolveMembers` of the project-update route: skip blank emails, look
the user up by id (when truthy) or normalized email, create a missing user
with the requested role, and promote a STUDENT to COLLABORATOR when added
as a collaborator.  Returns resolved `(user, isNew)` entries together with
the updated user table and id counter. -/
def resolveMembers (inputs : List MemberInput) (role : UserRole)
    (users : List User) (nextId : Nat) :
    List (User × Bool) × List User × Nat :=
  match inputs with
  | [] => ([], users, nextId)
  | input :: rest =>
    if input.email == "" then resolveMembers rest role users nextId
    else
      let email := input.email.trim.toLower
      if email == "" then resolveMembers rest role users nextId
      else
        let found :=
          if truthyId input.id then users.find? (fun u => some u.id == input.id)
          else users.find? (fun u => u.email == email)
        match found with
        | none =>
          let newUser := createMemberUser email
            (match input.name with
             | none => none
             | some n => if n.trim == "" then none else some n.trim)
            role nextId
          let (entries, users', nextId') :=
            resolveMembers rest role (users ++ [newUser]) (nextId + 1)
          ((newUser, true) :: entries, users', nextId')
        | some user =>
          if user.role == UserRole.STUDENT && role == UserRole.COLLABORATOR then
            let promoted := { user with role := UserRole.COLLABORATOR }
            let users0 := users.map (fun v => if v.id == user.id then promoted else v)
            let (entries, users', nextId') := resolveMembers rest role users0 nextId
            ((promoted, false) :: entries, users', nextId')
          else
            let (entries, users', nextId') := resolveMembers rest role users nextId
            ((user, false) :: entries, users', nextId')

/-- Dedup `Array.from(new Map(list.map(u => [u.id, u])).values())`: one entry per
id, at the position of the first occurrence, holding the last value seen. -/
def dedupUsersById (l : List User) : List User :=
  l.foldl (fun acc u =>
    if acc.any (fun v => v.id == u.id) then
      acc.map (fun v => if v.id == u.id then u else v)
    else acc ++ [u]) []

/-- PUT branch of `src/pages/api/projects/[id].ts`.  The handler resolves
no session: `req.sessionUserId` is never consulted. -/
def projectUpdateHandler (req : ApiRequest) (st : AppState) :
    ApiResponse × AppState :=
  match st.projects.find? (fun p => p.id == req.projectId) with
  | none => (⟨404, some "Project not found"⟩, st)
  | some existingProject =>
    let r1 := resolveMembers req.body.students UserRole.STUDENT st.users st.nextUserId
    let studentEntries := r1.1
    let r2 := resolveMembers req.body.collaborators UserRole.COLLABORATOR r1.2.1 r1.2.2
    let collaboratorEntries := r2.1
    let users2 := r2.2.1
    let st2 : AppState := { st with users := users2, nextUserId := r2.2.2 }
    match users2.find? (fun u => u.id == existingProject.supervisorId) with
    | none => (⟨404, some "Supervisor record not found"⟩, st2)
    | some supervisorAccount =>
      let potentialSponsorees :=
        ((studentEntries ++ collaboratorEntries).map Prod.fst).filter
          (fun u => u.role == UserRole.STUDENT || u.role == UserRole.COLLABORATOR)
      let uniquePotentialSponsorees := dedupUsersById potentialSponsorees
      match uniquePotentialSponsorees.find?
          (fun u => truthyId u.sponsorId && u.sponsorId != some supervisorAccount.id) with
      | some conflicting =>
        (⟨409, some ("User " ++ conflicting.email ++
          " is already sponsored by another supervisor")⟩, st2)
      | none =>
        let additionalSponsorships :=
          (uniquePotentialSponsorees.filter (fun u => !(truthyId u.sponsorId))).length
        if 0 < additionalSponsorships ∧
            canSponsorAccounts supervisorAccount.subscriptionType = false then
          (⟨403, some "An active subscription is required to sponsor additional accounts"⟩,
            st2)
        else if SUPERVISOR_SPONSOR_LIMIT <
            countSponsoredBy supervisorAccount.id users2 + additionalSponsorships then
          (⟨400, some ("Sponsoring these members would exceed the limit of " ++
            toString SUPERVISOR_SPONSOR_LIMIT ++ " accounts")⟩, st2)
        else
          let updatedProjects := st.projects.map (fun p =>
            if p.id == req.projectId then
              { p with title := req.body.title
                       description := req.body.description
                       startDate := req.body.startDate
                       endDate := req.body.endDate
                       category := req.body.category
                       studentIds := studentEntries.map (fun e => e.1.id)
                       collaboratorIds := collaboratorEntries.map (fun e => e.1.id) }
            else p)
          let usersToSponsor := uniquePotentialSponsorees.filter
            (fun u => u.sponsorId != some supervisorAccount.id)
          let users3 :=
            if usersToSponsor.isEmpty then users2
            else users2.map (fun u =>
              if usersToSponsor.any (fun v => v.id == u.id) then
                { u with sponsorId := some supervisorAccount.id
                         supervisorId := some supervisorAccount.id
                         subscriptionType := SubscriptionType.SPONSORED
                         subscriptionExpiresAt := none }
              else u)
          (⟨200, none⟩, { users := users3, projects := updatedProjects, nextUserId := r2.2.2 })

/-! ## Theorems: StatusEngine -/

lemma isActive_eq_not_completed (t : Task) :
    isActiveTask t = !(isCompletedTask t) := rfl

lemma not_all_completed_of_active {tasks : List Task} {t : Task}
    (hmem : t ∈ tasks) (hact : isActiveTask t = true) :
    tasks.all isCompletedTask = false := by
  rw [Bool.eq_false_iff]
  intro hall
  have hc := List.all_eq_true.mp hall t hmem
  rw [isActive_eq_not_completed, hc] at hact
  simp at hact

/-- C1: a snapshot with exactly one active task, that task overdue by more
than one day, and the behind-schedule, duration-overflow and
beyond-project sets all empty, derives "Behind Schedule" (and hence not
"Danger" nor any other label). -/
theorem statusBehindScheduleSingleOverdue
    (tasks : List Task) (t : Task) (projectEndDate : Option Int) (now d : Int)
    (hactive : tasks.filter isActiveTask = [t])
    (hdue : t.dueDate = some d)
    (hover : d < now - oneDayMs)
    (hbehind : behindScheduleTasks now tasks = [])
    (hoverflow : durationOverflow projectEndDate tasks = [])
    (hbeyond : tasksBeyondProject projectEndDate tasks = []) :
    deriveStatus tasks projectEndDate now = "Behind Schedule" := by
  have htf : t ∈ tasks.filter isActiveTask := by
    rw [hactive]; exact List.mem_singleton_self t
  have hmem : t ∈ tasks := (List.mem_filter.mp htf).1
  have hact : isActiveTask t = true := (List.mem_filter.mp htf).2
  have hempty : tasks.isEmpty = false := by
    rw [List.isEmpty_eq_false]
    exact List.ne_nil_of_mem hmem
  have hall : tasks.all isCompletedTask = false := not_all_completed_of_active hmem hact
  have hofilter : overdueFilter now t = true := by
    unfold overdueFilter
    rw [hdue]
    rw [Bool.and_eq_true]
    exact ⟨decide_eq_true hover, hact⟩
  have hoverduePos : 0 < (overdueTasks now tasks).length :=
    List.length_pos_of_mem (List.mem_filter.mpr ⟨hmem, hofilter⟩)
  unfold deriveStatus
  rw [hempty, hall]
  simp only [Bool.false_eq_true, if_false, hbehind, hoverflow, hbeyond, List.length_nil]
  rw [if_neg, if_neg, if_pos hoverduePos]
  · decide
  · simp

/-- Witness for C1: one active BLOCKED task due 25 hours before now. -/
def overdueWitnessTask : Task :=
  { title := "t1", status := "BLOCKED", dueDate := some 0,
    startDate := none, duration := none }

/-- Witness for C1 at the concrete snapshot. -/
theorem statusBehindScheduleSingleOverdueWitness :
    deriveStatus [overdueWitnessTask] none 90000000 = "Behind Schedule" :=
  statusBehindScheduleSingleOverdue [overdueWitnessTask] overdueWitnessTask none
    90000000 0 (by decide) rfl (by decide) (by decide) (by decide) (by decide)

/-- C8: an active task with a start date, positive duration and a project
end date such that `startDate + duration` days passes the project end is
in the duration-overflow set, and the derivation returns "Danger". -/
theorem statusDurationOverflowDanger
    (tasks : List Task) (t : Task) (now s d e : Int)
    (hmem : t ∈ tasks) (hact : isActiveTask t = true)
    (hs : t.startDate = some s) (hd : t.duration = some d) (hdpos : 0 < d)
    (hover : s + d * oneDayMs > e) :
    t ∈ durationOverflow (some e) tasks ∧
    deriveStatus tasks (some e) now = "Danger" := by
  have hf : durationOverflowFilter (some e) t = true := by
    unfold durationOverflowFilter
    rw [hs, hd]
    rw [Bool.and_eq_true]
    exact ⟨decide_eq_true hdpos, decide_eq_true hover⟩
  have hmemo : t ∈ durationOverflow (some e) tasks := List.mem_filter.mpr ⟨hmem, hf⟩
  refine ⟨hmemo, ?_⟩
  have hpos : 0 < (durationOverflow (some e) tasks).length :=
    List.length_pos_of_mem hmemo
  have hempty : tasks.isEmpty = false := by
    rw [List.isEmpty_eq_false]
    exact List.ne_nil_of_mem hmem
  have hall : tasks.all isCompletedTask = false := not_all_completed_of_active hmem hact
  unfold deriveStatus
  rw [hempty, hall]
  simp only [Bool.false_eq_true, if_false]
  rw [if_pos (Or.inr (Or.inl hpos))]

/-- Witness for C8: start 2025-01-01, duration 10 days, end 2025-01-05. -/
def overflowWitnessTask : Task :=
  { title := "t1", status := "TODO", dueDate := none,
    startDate := some 1735689600000, duration := some 10 }

/-- Witness for C8 at the spec's example dates. -/
theorem statusDurationOverflowDangerWitness :
    overflowWitnessTask ∈ durationOverflow (some 1736035200000) [overflowWitnessTask] ∧
    deriveStatus [overflowWitnessTask] (some 1736035200000) 0 = "Danger" :=
  statusDurationOverflowDanger [overflowWitnessTask] overflowWitnessTask 0
    1735689600000 10 1736035200000 (List.mem_singleton_self overflowWitnessTask)
    (by decide) rfl rfl (by decide) (by decide)

/-! ## Theorems: AccessController authentication gate -/

/-- C2 counterexample: a SPONSORED user with `sponsorId = null`, correct
credentials but an unverified email fails the primary `authorize` with
"Email not verified", not "Awaiting sponsorship approval". -/
def sponsoredPendingUnverifiedUser : User :=
  { id := 10, email := "pending@example.com", name := none,
    passwordHash := some "pw", emailVerified := false, role := UserRole.STUDENT,
    subscriptionType := SubscriptionType.SPONSORED, subscriptionStartedAt := none,
    subscriptionExpiresAt := none, sponsorId := none, supervisorId := some 1,
    sponsorSubscriptionInactive := false, goCardlessSubscriptionId := none,
    goCardlessMandateId := none, goCardlessSubscriptionStatus := none }

/-- Counterexample for C2 as stated: a correct-credentials attempt by a
SPONSORED, sponsorless user with an unverified email fails with a
different error than "Awaiting sponsorship approval". -/
theorem awaitingApprovalCounterexample :
    sponsoredPendingUnverifiedUser.subscriptionType = SubscriptionType.SPONSORED ∧
    sponsoredPendingUnverifiedUser.sponsorId = none ∧
    authorizeMain (fun p h => p == h)
      (fun e => if e == "pending@example.com" then some sponsoredPendingUnverifiedUser else none)
      "pending@example.com" "pw" 0 = .error "Email not verified" ∧
    "Email not verified" ≠ "Awaiting sponsorship approval" := by
  refine ⟨rfl, rfl, by decide, by decide⟩

/-- C2 (amended): a SPONSORED user with a null `sponsorId` can never
authenticate in either implementation; with a correct password the
failure is exactly "Awaiting sponsorship approval" — in the primary
implementation provided the email is verified (an unverified email fails
earlier with "Email not verified"), in the alternative one provided the
submitted credentials are non-empty. -/
theorem awaitingSponsorshipRejection
    (u : User) (verify : String → String → Bool)
    (findUserByEmail : String → Option User)
    (email password : String) (now : Int)
    (hTy : u.subscriptionType = SubscriptionType.SPONSORED)
    (hSp : u.sponsorId = none)
    (hFind : findUserByEmail email = some u) :
    (∀ a, authorizeMain verify findUserByEmail email password now ≠ .ok a) ∧
    (∀ a, authorizeAlt verify findUserByEmail email password now ≠ .ok a) ∧
    (∀ hsh, u.passwordHash = some hsh → verify password hsh = true →
      u.emailVerified = true →
      authorizeMain verify findUserByEmail email password now
        = .error "Awaiting sponsorship approval") ∧
    (∀ hsh, u.passwordHash = some hsh → verify password hsh = true →
      email ≠ "" → password ≠ "" →
      authorizeAlt verify findUserByEmail email password now
        = .error "Awaiting sponsorship approval") := by
  have hcond : (u.subscriptionType == SubscriptionType.SPONSORED &&
      !(truthyId u.sponsorId)) = true := by
    rw [hTy, hSp]; rfl
  refine ⟨?_, ?_, ?_, ?_⟩
  · intro a hok
    unfold authorizeMain at hok
    rw [hFind] at hok
    dsimp only at hok
    rcases hph : u.passwordHash with _ | hash <;> rw [hph] at hok <;>
      dsimp only at hok
    · exact AuthResult.noConfusion hok
    · split_ifs at hok
  · intro a hok
    unfold authorizeAlt at hok
    by_cases hcred : (email == "" || password == "") = true
    · rw [if_pos hcred] at hok
      exact AuthResult.noConfusion hok
    · rw [if_neg hcred, hFind] at hok
      dsimp only at hok
      rcases hph : u.passwordHash with _ | hash <;> rw [hph] at hok <;>
        dsimp only at hok
      · exact AuthResult.noConfusion hok
      · split_ifs at hok
  · intro hsh hph hv hev
    unfold authorizeMain
    rw [hFind]
    dsimp only
    rw [hph]
    dsimp only
    rw [hv, hev]
    simp only [Bool.not_true, Bool.false_eq_true, if_false, hcond, if_true]
  · intro hsh hph hv hE hP
    have hcred : (email == "" || password == "") = false := by
      simp [hE, hP]
    unfold authorizeAlt
    rw [hcred]
    simp only [Bool.false_eq_true, if_false]
    rw [hFind]
    dsimp only
    rw [hph]
    dsimp only
    rw [hv]
    simp only [Bool.not_true, Bool.false_eq_true, if_false, hcond, if_true]

/-- Witness user for the amended C2: verified email, correct password. -/
def sponsoredPendingVerifiedUser : User :=
  { sponsoredPendingUnverifiedUser with
    id := 11
    email := "pending2@example.com"
    emailVerified := true }

/-- Witness for the amended C2 at a concrete user. -/
theorem awaitingSponsorshipRejectionWitness :
    authorizeMain (fun p h => p == h)
      (fun e => if e == "pending2@example.com" then some sponsoredPendingVerifiedUser else none)
      "pending2@example.com" "pw" 0 = .error "Awaiting sponsorship approval" ∧
    authorizeAlt (fun p h => p == h)
      (fun e => if e == "pending2@example.com" then some sponsoredPendingVerifiedUser else none)
      "pending2@example.com" "pw" 0 = .error "Awaiting sponsorship approval" := by
  have h := awaitingSponsorshipRejection sponsoredPendingVerifiedUser
    (fun p h => p == h)
    (fun e => if e == "pending2@example.com" then some sponsoredPendingVerifiedUser else none)
    "pending2@example.com" "pw" 0 rfl rfl (by decide)
  exact ⟨h.2.2.1 "pw" rfl (by decide) rfl,
         h.2.2.2 "pw" rfl (by decide) (by decide) (by decide)⟩

/-- C7: with correct, verified credentials, a FREE_TRIAL user with a
non-null expiry fails with "Your free trial has ended" exactly when the
expiry is strictly before now, and succeeds otherwise — in both
implementations. -/
theorem freeTrialExpiryBoundary
    (u : User) (t : Int) (verify : String → String → Bool)
    (findUserByEmail : String → Option User)
    (email password hsh : String) (now : Int)
    (hTy : u.subscriptionType = SubscriptionType.FREE_TRIAL)
    (hExp : u.subscriptionExpiresAt = some t)
    (hFind : findUserByEmail email = some u)
    (hHash : u.passwordHash = some hsh)
    (hVer : verify password hsh = true)
    (hEmailVer : u.emailVerified = true)
    (hE : email ≠ "") (hP : password ≠ "") :
    (t < now →
      authorizeMain verify findUserByEmail email password now
        = .error "Your free trial has ended" ∧
      authorizeAlt verify findUserByEmail email password now
        = .error "Your free trial has ended") ∧
    (now ≤ t →
      authorizeMain verify findUserByEmail email password now
        = .ok (mkAuthUser u) ∧
      authorizeAlt verify findUserByEmail email password now
        = .ok (mkAuthUserAlt u)) := by
  have hSpCond : (u.subscriptionType == SubscriptionType.SPONSORED &&
      !(truthyId u.sponsorId)) = false := by
    rw [hTy]; rfl
  have hCanCond : (u.subscriptionType == SubscriptionType.CANCELLED) = false := by
    rw [hTy]; rfl
  have hTyB : (u.subscriptionType == SubscriptionType.FREE_TRIAL) = true := by
    rw [hTy]; rfl
  have hcred : (email == "" || password == "") = false := by simp [hE, hP]
  have hTrial : trialExpired u.subscriptionExpiresAt now = decide (t < now) := by
    rw [hExp]; rfl
  constructor
  · intro hlt
    have hTrialT : (u.subscriptionType == SubscriptionType.FREE_TRIAL &&
        trialExpired u.subscriptionExpiresAt now) = true := by
      rw [hTyB, hTrial, decide_eq_true hlt]; rfl
    constructor
    · unfold authorizeMain
      rw [hFind]
      dsimp only
      rw [hHash]
      dsimp only
      rw [hVer, hEmailVer]
      simp only [Bool.not_true, Bool.false_eq_true, if_false, hSpCond,
        hTrialT, if_true]
    · unfold authorizeAlt
      rw [hcred]
      simp only [Bool.false_eq_true, if_false]
      rw [hFind]
      dsimp only
      rw [hHash]
      dsimp only
      rw [hVer]
      simp only [Bool.not_true, Bool.false_eq_true, if_false, hSpCond,
        hCanCond, hTrialT, if_true]
  · intro hge
    have hTrialF : (u.subscriptionType == SubscriptionType.FREE_TRIAL &&
        trialExpired u.subscriptionExpiresAt now) = false := by
      rw [hTrial, decide_eq_false (not_lt.mpr hge)]
      exact Bool.and_false _
    constructor
    · unfold authorizeMain
      rw [hFind]
      dsimp only
      rw [hHash]
      dsimp only
      rw [hVer, hEmailVer]
      simp only [Bool.not_true, Bool.false_eq_true, if_false, hSpCond, hTrialF]
    · unfold authorizeAlt
      rw [hcred]
      simp only [Bool.false_eq_true, if_false]
      rw [hFind]
      dsimp only
      rw [hHash]
      dsimp only
      rw [hVer]
      simp only [Bool.not_true, Bool.false_eq_true, if_false, hSpCond,
        hCanCond, hTrialF]

/-- Witness users for C7: trial expired at time 0 / expiring at 2000. -/
def freeTrialExpiredUser : User :=
  { id := 20, email := "trial1@example.com", name := none,
    passwordHash := some "pw", emailVerified := true, role := UserRole.SUPERVISOR,
    subscriptionType := SubscriptionType.FREE_TRIAL, subscriptionStartedAt := none,
    subscriptionExpiresAt := some 0, sponsorId := none, supervisorId := none,
    sponsorSubscriptionInactive := false, goCardlessSubscriptionId := none,
    goCardlessMandateId := none, goCardlessSubscriptionStatus := none }

def freeTrialActiveUser : User :=
  { freeTrialExpiredUser with
    id := 21
    email := "trial2@example.com"
    subscriptionExpiresAt := some 2000 }

/-- Witness for C7 one second on either side of the expiry. -/
theorem freeTrialExpiryBoundaryWitness :
    (authorizeMain (fun p h => p == h)
      (fun e => if e == "trial1@example.com" then some freeTrialExpiredUser else none)
      "trial1@example.com" "pw" 1000 = .error "Your free trial has ended") ∧
    (authorizeMain (fun p h => p == h)
      (fun e => if e == "trial2@example.com" then some freeTrialActiveUser else none)
      "trial2@example.com" "pw" 1000 = .ok (mkAuthUser freeTrialActiveUser)) := by
  have h1 := freeTrialExpiryBoundary freeTrialExpiredUser 0 (fun p h => p == h)
    (fun e => if e == "trial1@example.com" then some freeTrialExpiredUser else none)
    "trial1@example.com" "pw" "pw" 1000 rfl rfl (by decide) rfl (by decide) rfl
    (by decide) (by decide)
  have h2 := freeTrialExpiryBoundary freeTrialActiveUser 2000 (fun p h => p == h)
    (fun e => if e == "trial2@example.com" then some freeTrialActiveUser else none)
    "trial2@example.com" "pw" "pw" 1000 rfl rfl (by decide) rfl (by decide) rfl
    (by decide) (by decide)
  exact ⟨(h1.1 (by decide)).1, (h2.2 (by decide)).1⟩

/-- C9: a SPONSORED user with a non-null sponsor, correct verified
credentials and an inactive sponsor subscription still authenticates in
the primary implementation, while the UI-level sponsor-inactive lockout
condition evaluates to true for their profile. -/
theorem sponsoredInactiveLoginAndLockout
    (u : User) (sid : Nat) (verify : String → String → Bool)
    (findUserByEmail : String → Option User)
    (email password hsh : String) (now : Int)
    (hTy : u.subscriptionType = SubscriptionType.SPONSORED)
    (hSp : u.sponsorId = some sid) (hSid : sid ≠ 0)
    (hFlag : u.sponsorSubscriptionInactive = true)
    (hRole : u.role = UserRole.STUDENT ∨ u.role = UserRole.COLLABORATOR)
    (hFind : findUserByEmail email = some u)
    (hHash : u.passwordHash = some hsh)
    (hVer : verify password hsh = true)
    (hEmailVer : u.emailVerified = true) :
    authorizeMain verify findUserByEmail email password now = .ok (mkAuthUser u) ∧
    sponsorInactiveLockout u.role u.sponsorSubscriptionInactive = true := by
  have hSpCond : (u.subscriptionType == SubscriptionType.SPONSORED &&
      !(truthyId u.sponsorId)) = false := by
    rw [hTy, hSp]
    simp [truthyId, hSid]
  have hTrialF : (u.subscriptionType == SubscriptionType.FREE_TRIAL &&
      trialExpired u.subscriptionExpiresAt now) = false := by
    rw [hTy]; rfl
  constructor
  · unfold authorizeMain
    rw [hFind]
    dsimp only
    rw [hHash]
    dsimp only
    rw [hVer, hEmailVer]
    simp only [Bool.not_true, Bool.false_eq_true, if_false, hSpCond, hTrialF]
  · rcases hRole with h | h <;> unfold sponsorInactiveLockout <;>
      rw [h, hFlag] <;> rfl

/-- Witness user for C9. -/
def sponsoredInactiveUser : User :=
  { id := 30, email := "b@example.com", name := none,
    passwordHash := some "pw", emailVerified := true, role := UserRole.STUDENT,
    subscriptionType := SubscriptionType.SPONSORED, subscriptionStartedAt := none,
    subscriptionExpiresAt := none, sponsorId := some 1, supervisorId := some 1,
    sponsorSubscriptionInactive := true, goCardlessSubscriptionId := none,
    goCardlessMandateId := none, goCardlessSubscriptionStatus := none }

/-- Witness for C9 at a concrete sponsored student. -/
theorem sponsoredInactiveLoginAndLockoutWitness :
    authorizeMain (fun p h => p == h)
      (fun e => if e == "b@example.com" then some sponsoredInactiveUser else none)
      "b@example.com" "pw" 0 = .ok (mkAuthUser sponsoredInactiveUser) ∧
    sponsorInactiveLockout sponsoredInactiveUser.role
      sponsoredInactiveUser.sponsorSubscriptionInactive = true :=
  sponsoredInactiveLoginAndLockout sponsoredInactiveUser 1 (fun p h => p == h)
    (fun e => if e == "b@example.com" then some sponsoredInactiveUser else none)
    "b@example.com" "pw" "pw" 0 rfl rfl (by decide) rfl (Or.inl rfl) (by decide)
    rfl (by decide) rfl

/-! ## Theorems: webhook termination processing -/

lemma terminate_id (now : Int) (action : String) (uid : Nat) (u : User) :
    (terminateMatchedUser now action uid u).id = u.id := by
  unfold terminateMatchedUser; split <;> rfl

lemma terminate_sponsorId (now : Int) (action : String) (uid : Nat) (u : User) :
    (terminateMatchedUser now action uid u).sponsorId = u.sponsorId := by
  unfold terminateMatchedUser; split <;> rfl

lemma terminate_subId (now : Int) (action : String) (uid : Nat) (u : User) :
    (terminateMatchedUser now action uid u).goCardlessSubscriptionId
      = u.goCardlessSubscriptionId := by
  unfold terminateMatchedUser; split <;> rfl

lemma flag_id (uid : Nat) (v : Bool) (u : User) :
    (setSponsorInactiveFlag uid v u).id = u.id := by
  unfold setSponsorInactiveFlag; split <;> rfl

lemma flag_sponsorId (uid : Nat) (v : Bool) (u : User) :
    (setSponsorInactiveFlag uid v u).sponsorId = u.sponsorId := by
  unfold setSponsorInactiveFlag; split <;> rfl

lemma flag_subscriptionType (uid : Nat) (v : Bool) (u : User) :
    (setSponsorInactiveFlag uid v u).subscriptionType = u.subscriptionType := by
  unfold setSponsorInactiveFlag; split <;> rfl

lemma flag_expiresAt (uid : Nat) (v : Bool) (u : User) :
    (setSponsorInactiveFlag uid v u).subscriptionExpiresAt
      = u.subscriptionExpiresAt := by
  unfold setSponsorInactiveFlag; split <;> rfl

lemma flag_subId (uid : Nat) (v : Bool) (u : User) :
    (setSponsorInactiveFlag uid v u).goCardlessSubscriptionId
      = u.goCardlessSubscriptionId := by
  unfold setSponsorInactiveFlag; split <;> rfl

lemma terminate_sets (now : Int) (action : String) (uid : Nat) (u : User)
    (h : u.id = uid) :
    (terminateMatchedUser now action uid u).subscriptionType
        = SubscriptionType.CANCELLED ∧
    (terminateMatchedUser now action uid u).subscriptionExpiresAt = some now := by
  unfold terminateMatchedUser
  rw [if_pos (beq_iff_eq.mpr h)]
  exact ⟨rfl, rfl⟩

lemma flag_sets (uid : Nat) (v : Bool) (u : User) (h : u.sponsorId = some uid) :
    (setSponsorInactiveFlag uid v u).sponsorSubscriptionInactive = v := by
  unfold setSponsorInactiveFlag
  rw [if_pos (beq_iff_eq.mpr h)]

/-- The composite termination write is pointwise idempotent. -/
lemma terminate_flag_idem (now : Int) (action : String) (uid : Nat) (u : User) :
    setSponsorInactiveFlag uid true (terminateMatchedUser now action uid
      (setSponsorInactiveFlag uid true (terminateMatchedUser now action uid u)))
    = setSponsorInactiveFlag uid true (terminateMatchedUser now action uid u) := by
  cases u
  unfold terminateMatchedUser setSponsorInactiveFlag
  dsimp only
  split <;> split <;> simp_all

/-- Lemma: `findFirst` by subscription id commutes with a write that preserves the
subscription id. -/
lemma find_subId_map (subId : String) (g : User → User) (users : List User)
    (hg : ∀ u, (g u).goCardlessSubscriptionId = u.goCardlessSubscriptionId) :
    findBySubscriptionId subId (users.map g)
      = (findBySubscriptionId subId users).map g := by
  unfold findBySubscriptionId
  rw [List.find?_map]
  have hpg : ((fun u : User => u.goCardlessSubscriptionId == some subId) ∘ g)
      = (fun u : User => u.goCardlessSubscriptionId == some subId) := by
    funext u
    simp only [Function.comp_apply, hg]
  rw [hpg]

/-- Evaluation of the webhook transaction on a termination action with a
matched user. -/
lemma processTermEq (subId action : String) (now : Int) (users : List User)
    (m : User) (hfind : findBySubscriptionId subId users = some m)
    (hterm : SUBSCRIPTION_TERMINATION_ACTIONS.contains action = true) :
    processSubscriptionEvent subId action now users
      = (users.map (terminateMatchedUser now action m.id)).map
          (setSponsorInactiveFlag m.id true) := by
  unfold processSubscriptionEvent
  rw [hfind]
  dsimp only
  rw [if_pos hterm]

/-- C3: delivering the same `cancelled` subscription event twice at the
same time gives the state of delivering it once; in that state the matched
supervisor is CANCELLED with expiry `now` and every user sponsored by them
carries the inactive flag. -/
theorem webhookCancelIdempotent (subId : String) (now : Int)
    (users : List User) (m : User)
    (hfind : findBySubscriptionId subId users = some m) :
    processSubscriptionEvent subId "cancelled" now
        (processSubscriptionEvent subId "cancelled" now users)
      = processSubscriptionEvent subId "cancelled" now users ∧
    ∀ u ∈ processSubscriptionEvent subId "cancelled" now users,
      (u.id = m.id →
        u.subscriptionType = SubscriptionType.CANCELLED ∧
        u.subscriptionExpiresAt = some now) ∧
      (u.sponsorId = some m.id → u.sponsorSubscriptionInactive = true) := by
  have hone := processTermEq subId "cancelled" now users m hfind rfl
  have hfind2 : findBySubscriptionId subId
      ((users.map (terminateMatchedUser now "cancelled" m.id)).map
        (setSponsorInactiveFlag m.id true))
      = some (setSponsorInactiveFlag m.id true
          (terminateMatchedUser now "cancelled" m.id m)) := by
    rw [List.map_map,
      find_subId_map subId
        (setSponsorInactiveFlag m.id true ∘ terminateMatchedUser now "cancelled" m.id)
        users
        (fun u => by rw [Function.comp_apply, flag_subId, terminate_subId]),
      hfind]
    rfl
  have hid2 : (setSponsorInactiveFlag m.id true
      (terminateMatchedUser now "cancelled" m.id m)).id = m.id := by
    rw [flag_id, terminate_id]
  have htwo := processTermEq subId "cancelled" now
    ((users.map (terminateMatchedUser now "cancelled" m.id)).map
      (setSponsorInactiveFlag m.id true))
    (setSponsorInactiveFlag m.id true (terminateMatchedUser now "cancelled" m.id m))
    hfind2 rfl
  constructor
  · rw [hone, htwo, hid2]
    rw [List.map_map, List.map_map, List.map_map, List.map_map]
    apply List.map_congr_left
    intro u _
    exact terminate_flag_idem now "cancelled" m.id u
  · intro u hu
    rw [hone, List.map_map] at hu
    obtain ⟨u0, _, rfl⟩ := List.mem_map.mp hu
    refine ⟨?_, ?_⟩
    · intro hid
      rw [Function.comp_apply, flag_id, terminate_id] at hid
      rw [Function.comp_apply, flag_subscriptionType, flag_expiresAt]
      exact terminate_sets now "cancelled" m.id u0 hid
    · intro hsp
      rw [Function.comp_apply, flag_sponsorId, terminate_sponsorId] at hsp
      rw [Function.comp_apply]
      exact flag_sets m.id true _ (by rw [terminate_sponsorId]; exact hsp)

/-- Witness state for C3: a subscribed supervisor holding subscription
"sub_1" sponsoring one student. -/
def webhookSupervisor : User :=
  { id := 1, email := "sup@example.com", name := none,
    passwordHash := some "pw", emailVerified := true, role := UserRole.SUPERVISOR,
    subscriptionType := SubscriptionType.SUBSCRIBED, subscriptionStartedAt := some 0,
    subscriptionExpiresAt := none, sponsorId := none, supervisorId := none,
    sponsorSubscriptionInactive := false, goCardlessSubscriptionId := some "sub_1",
    goCardlessMandateId := none, goCardlessSubscriptionStatus := some "active" }

def webhookSponsoredStudent : User :=
  { id := 2, email := "stu@example.com", name := none,
    passwordHash := some "pw", emailVerified := true, role := UserRole.STUDENT,
    subscriptionType := SubscriptionType.SPONSORED, subscriptionStartedAt := none,
    subscriptionExpiresAt := none, sponsorId := some 1, supervisorId := some 1,
    sponsorSubscriptionInactive := false, goCardlessSubscriptionId := none,
    goCardlessMandateId := none, goCardlessSubscriptionStatus := none }

/-- Witness for C3 at a concrete two-user state. -/
theorem webhookCancelIdempotentWitness :
    processSubscriptionEvent "sub_1" "cancelled" 5000
        (processSubscriptionEvent "sub_1" "cancelled" 5000
          [webhookSupervisor, webhookSponsoredStudent])
      = processSubscriptionEvent "sub_1" "cancelled" 5000
          [webhookSupervisor, webhookSponsoredStudent] :=
  (webhookCancelIdempotent "sub_1" 5000 [webhookSupervisor, webhookSponsoredStudent]
    webhookSupervisor (by decide)).1

/-! ## Theorems: explicit subscription cancellation -/

lemma explicitCancel_eq_terminate (now : Int) (supId : Nat) (u : User) :
    explicitCancelUser now supId u = terminateMatchedUser now "cancelled" supId u := rfl

/-- C4: the explicit cancel calls the billing provider first — on provider
failure the operation fails and the state is unchanged; on success the
result equals processing a `cancelled` webhook event for the supervisor's
subscription id at the same time, leaving the supervisor CANCELLED with
expiry `now` and every sponsored user flagged inactive. -/
theorem manageCancelAtomicMatchesWebhook
    (sessionUserId : Nat) (sup : User) (subId msg : String) (now : Int)
    (users : List User)
    (hSup : users.find? (fun u => u.id == sessionUserId) = some sup)
    (hSubId : sup.goCardlessSubscriptionId = some subId)
    (hFirst : findBySubscriptionId subId users = some sup) :
    manageSubscriptionDelete (.fail msg) sessionUserId now users
      = (.error msg, users) ∧
    manageSubscriptionDelete .ok sessionUserId now users
      = (.ok (), processSubscriptionEvent subId "cancelled" now users) ∧
    ∀ u ∈ (manageSubscriptionDelete .ok sessionUserId now users).2,
      (u.id = sup.id →
        u.subscriptionType = SubscriptionType.CANCELLED ∧
        u.subscriptionExpiresAt = some now) ∧
      (u.sponsorId = some sup.id → u.sponsorSubscriptionInactive = true) := by
  have hfail : manageSubscriptionDelete (.fail msg) sessionUserId now users
      = (.error msg, users) := by
    unfold manageSubscriptionDelete
    rw [hSup]
    dsimp only
    rw [hSubId]
  have hok : manageSubscriptionDelete .ok sessionUserId now users
      = (.ok (), (users.map (explicitCancelUser now sup.id)).map
          (setSponsorInactiveFlag sup.id true)) := by
    unfold manageSubscriptionDelete
    rw [hSup]
    dsimp only
    rw [hSubId]
  have hweb : processSubscriptionEvent subId "cancelled" now users
      = (users.map (terminateMatchedUser now "cancelled" sup.id)).map
          (setSponsorInactiveFlag sup.id true) :=
    processTermEq subId "cancelled" now users sup hFirst rfl
  refine ⟨hfail, ?_, ?_⟩
  · rw [hok, hweb]
    have : explicitCancelUser now sup.id = terminateMatchedUser now "cancelled" sup.id := by
      funext u
      exact explicitCancel_eq_terminate now sup.id u
    rw [this]
  · intro u hu
    rw [hok] at hu
    dsimp only at hu
    rw [List.map_map] at hu
    obtain ⟨u0, _, rfl⟩ := List.mem_map.mp hu
    refine ⟨?_, ?_⟩
    · intro hid
      rw [Function.comp_apply, explicitCancel_eq_terminate, flag_id, terminate_id] at hid
      rw [Function.comp_apply, explicitCancel_eq_terminate, flag_subscriptionType,
        flag_expiresAt]
      exact terminate_sets now "cancelled" sup.id u0 hid
    · intro hsp
      rw [Function.comp_apply, explicitCancel_eq_terminate, flag_sponsorId,
        terminate_sponsorId] at hsp
      rw [Function.comp_apply, explicitCancel_eq_terminate]
      exact flag_sets sup.id true _ (by rw [terminate_sponsorId]; exact hsp)

/-- Witness for C4 at a concrete two-user state. -/
theorem manageCancelAtomicMatchesWebhookWitness :
    manageSubscriptionDelete (.fail "provider down") 1 5000
        [webhookSupervisor, webhookSponsoredStudent]
      = (.error "provider down", [webhookSupervisor, webhookSponsoredStudent]) ∧
    manageSubscriptionDelete .ok 1 5000 [webhookSupervisor, webhookSponsoredStudent]
      = (.ok (), processSubscriptionEvent "sub_1" "cancelled" 5000
          [webhookSupervisor, webhookSponsoredStudent]) :=
  ⟨(manageCancelAtomicMatchesWebhook 1 webhookSupervisor "sub_1" "provider down" 5000
      [webhookSupervisor, webhookSponsoredStudent] (by decide) rfl (by decide)).1,
   (manageCancelAtomicMatchesWebhook 1 webhookSupervisor "sub_1" "provider down" 5000
      [webhookSupervisor, webhookSponsoredStudent] (by decide) rfl (by decide)).2.1⟩

/-! ## Theorems: sponsorship limit and the non-transactional race -/

/-- C5: a sponsoring supervisor already at the 50-user limit, with a
subscription that permits sponsoring, has a further sponsorship request
rejected with the limit error and the user table left unchanged. -/
theorem sponsorLimitRejection
    (sessionUserId uid : Nat) (role : UserRole) (sup : User) (users : List User)
    (hRole : role = UserRole.SUPERVISOR ∨ role = UserRole.ADMIN)
    (hUid : uid ≠ 0) (hSelf : uid ≠ sessionUserId)
    (hSup : users.find? (fun u => u.id == sessionUserId) = some sup)
    (hCan : canSponsorAccounts sup.subscriptionType = true)
    (hCount : countSponsoredBy sessionUserId users = SUPERVISOR_SPONSOR_LIMIT) :
    sponsoredHandlerPost (some (sessionUserId, role)) (some uid) users
      = (⟨400, some ("Sponsor limit of " ++ toString SUPERVISOR_SPONSOR_LIMIT
          ++ " reached")⟩, users) := by
  have hrole : (role == UserRole.SUPERVISOR || role == UserRole.ADMIN) = true := by
    rcases hRole with h | h <;> rw [h] <;> rfl
  have huid0 : (uid == 0) = false := beq_eq_false_iff_ne.mpr hUid
  have huids : (uid == sessionUserId) = false := beq_eq_false_iff_ne.mpr hSelf
  unfold sponsoredHandlerPost
  dsimp only
  rw [hrole]
  simp only [Bool.not_true, Bool.false_eq_true, if_false]
  rw [huid0]
  simp only [Bool.false_eq_true, if_false]
  rw [huids]
  simp only [Bool.false_eq_true, if_false]
  unfold sponsoredReadSupervisor
  rw [hSup]
  dsimp only
  unfold sponsoredGrant
  rw [hCan]
  simp only [Bool.not_true, Bool.false_eq_true, if_false]
  rw [hCount, if_pos (le_refl SUPERVISOR_SPONSOR_LIMIT)]

/-- A sponsored student referencing sponsor 1 (witness-state builder). -/
def mkSponsoredUser (n : Nat) : User :=
  { id := n, email := "", name := none, passwordHash := none, emailVerified := true,
    role := UserRole.STUDENT, subscriptionType := SubscriptionType.SPONSORED,
    subscriptionStartedAt := none, subscriptionExpiresAt := none,
    sponsorId := some 1, supervisorId := some 1, sponsorSubscriptionInactive := false,
    goCardlessSubscriptionId := none, goCardlessMandateId := none,
    goCardlessSubscriptionStatus := none }

def limitSupervisor : User :=
  { mkSponsoredUser 1 with
    role := UserRole.SUPERVISOR
    subscriptionType := SubscriptionType.SUBSCRIBED
    sponsorId := none
    supervisorId := none }

/-- An unsponsored student eligible as a sponsorship target. -/
def limitTarget (n : Nat) : User :=
  { mkSponsoredUser n with
    sponsorId := none
    subscriptionType := SubscriptionType.FREE_TRIAL }

/-- Witness state for C5: supervisor 1 with exactly 50 sponsored users and
one unsponsored candidate. -/
def limitState : List User :=
  limitSupervisor :: limitTarget 100 ::
    (List.range 50).map (fun i => mkSponsoredUser (i + 2))

/-- Witness for C5 at the 50-sponsored concrete state. -/
theorem sponsorLimitRejectionWitness :
    sponsoredHandlerPost (some (1, UserRole.SUPERVISOR)) (some 100) limitState
      = (⟨400, some "Sponsor limit of 50 reached"⟩, limitState) :=
  sponsorLimitRejection 1 100 UserRole.SUPERVISOR limitSupervisor limitState
    (Or.inl rfl) (by decide) (by decide) (by decide) rfl (by decide)

/-- Exhibit state for C6: supervisor 1 with 49 sponsored users and two
unsponsored candidates. -/
def raceState : List User :=
  limitSupervisor :: limitTarget 100 :: limitTarget 101 ::
    (List.range 49).map (fun i => mkSponsoredUser (i + 2))

/-- C6 exhibit: the POST handler's supervisor/count read and its
sponsorship write are separate, non-transactional statements; in the
interleaving read-A, read-B, write-A, write-B both requests observe the
stale count 49, both succeed, and the final sponsored count is 51,
exceeding `SUPERVISOR_SPONSOR_LIMIT`. -/
theorem sponsorLimitRaceExhibit :
    sponsoredReadSupervisor 1 raceState = some (limitSupervisor, 49) ∧
    (sponsoredGrant 1 100 limitSupervisor 49 raceState).1.status = 200 ∧
    (sponsoredGrant 1 101 limitSupervisor 49
      (sponsoredGrant 1 100 limitSupervisor 49 raceState).2).1.status = 200 ∧
    countSponsoredBy 1 (sponsoredGrant 1 101 limitSupervisor 49
      (sponsoredGrant 1 100 limitSupervisor 49 raceState).2).2
      = SUPERVISOR_SPONSOR_LIMIT + 1 := by
  refine ⟨by decide, by decide, by decide, by decide⟩

/-! ## Theorems: the unauthenticated project-update endpoint -/

lemma resolveMembers_nil (role : UserRole) (users : List User) (n : Nat) :
    resolveMembers [] role users n = ([], users, n) := rfl

lemma dedupUsersById_nil : dedupUsersById [] = [] := rfl

/-- Every response of the PUT handler is a 404, 409, the
supervisor-subscription 403, a 400 or a 200. -/
lemma projectUpdate_status_cases (req : ApiRequest) (st : AppState) :
    (projectUpdateHandler req st).1.status = 404 ∨
    (projectUpdateHandler req st).1.status = 409 ∨
    ((projectUpdateHandler req st).1.status = 403 ∧
      (projectUpdateHandler req st).1.error
        = some "An active subscription is required to sponsor additional accounts") ∨
    (projectUpdateHandler req st).1.status = 400 ∨
    (projectUpdateHandler req st).1.status = 200 := by
  unfold projectUpdateHandler
  split
  · simp
  · try dsimp only
    split
    · simp
    · try dsimp only
      split
      · simp
      · try dsimp only
        split
        · simp
        · split
          · simp
          · simp

/-- C10: the PUT project-update endpoint resolves no session — its result
is the same for every requester identity, it never answers 401, its only
403 is the supervisor-subscription message rather than an
authentication/authorization rejection, and any request whose member
lists are empty rewrites an existing project's fields unconditionally. -/
theorem projectUpdateNoAuth (req : ApiRequest) (st : AppState)
    (a b : Option Nat) (p : Project) (sup : User) :
    projectUpdateHandler { req with sessionUserId := a } st
      = projectUpdateHandler { req with sessionUserId := b } st ∧
    (projectUpdateHandler req st).1.status ≠ 401 ∧
    ((projectUpdateHandler req st).1.status = 403 →
      (projectUpdateHandler req st).1.error
        = some "An active subscription is required to sponsor additional accounts") ∧
    (st.projects.find? (fun q => q.id == req.projectId) = some p →
      req.body.students = [] → req.body.collaborators = [] →
      st.users.find? (fun u => u.id == p.supervisorId) = some sup →
      countSponsoredBy sup.id st.users ≤ SUPERVISOR_SPONSOR_LIMIT →
      (projectUpdateHandler req st).1.status = 200 ∧
      (projectUpdateHandler req st).2.projects
        = st.projects.map (fun q =>
            if q.id == req.projectId then
              { q with title := req.body.title
                       description := req.body.description
                       startDate := req.body.startDate
                       endDate := req.body.endDate
                       category := req.body.category
                       studentIds := []
                       collaboratorIds := [] }
            else q)) := by
  refine ⟨rfl, ?_, ?_, ?_⟩
  · intro h401
    rcases projectUpdate_status_cases req st with h | h | ⟨h, _⟩ | h | h <;>
      exact absurd (h401.symm.trans h) (by decide)
  · intro h403
    rcases projectUpdate_status_cases req st with h | h | ⟨h, he⟩ | h | h
    · exact absurd (h403.symm.trans h) (by decide)
    · exact absurd (h403.symm.trans h) (by decide)
    · exact he
    · exact absurd (h403.symm.trans h) (by decide)
    · exact absurd (h403.symm.trans h) (by decide)
  · intro hproj hstu hcol hsup hcount
    unfold projectUpdateHandler
    rw [hproj]
    dsimp only
    rw [hstu, hcol]
    simp only [resolveMembers_nil]
    try dsimp only
    rw [hsup]
    try dsimp only
    simp only [List.nil_append, List.map_nil, List.filter_nil, dedupUsersById_nil,
      List.find?_nil, List.length_nil, List.isEmpty_nil]
    rw [if_neg (by
      rintro ⟨hlt, -⟩
      exact absurd hlt (by decide))]
    rw [if_neg (by
      rw [Nat.add_zero]
      exact not_lt.mpr hcount)]
    simp

/-- Witness fixtures for C10. -/
def updateReqBody : ProjectUpdateBody :=
  { title := "T2", description := "D2", startDate := none, endDate := some 100,
    category := "student-project", students := [], collaborators := [] }

def updateReq : ApiRequest :=
  { sessionUserId := none, projectId := 7, body := updateReqBody }

def updateProject : Project :=
  { id := 7, title := "T", description := "D", startDate := none, endDate := none,
    category := "c", supervisorId := 1, studentIds := [], collaboratorIds := [] }

def updateState : AppState :=
  { users := [limitSupervisor], projects := [updateProject], nextUserId := 1000 }

/-- Witness for C10 at a concrete one-project state. -/
theorem projectUpdateNoAuthWitness :
    projectUpdateHandler { updateReq with sessionUserId := some 5 } updateState
      = projectUpdateHandler { updateReq with sessionUserId := some 6 } updateState ∧
    (projectUpdateHandler updateReq updateState).1.status ≠ 401 ∧
    (projectUpdateHandler updateReq updateState).1.status = 200 := by
  have h := projectUpdateNoAuth updateReq updateState (some 5) (some 6)
    updateProject limitSupervisor
  exact ⟨h.1, h.2.1, (h.2.2.2 (by decide) rfl rfl (by decide) (by decide)).1⟩

end ProjectDesk
